import Mathlib

/-!
Verification of the task-management program (`zad2.py`).

The Python source is shallowly embedded below.  Conventions:

* `datetime` values are modelled by `PyDateTime`, a record of calendar
  fields at second precision (the program only ever formats, parses and
  compares timestamps at second precision).
* JSON data (and the plain Python values a task attribute can hold after
  `json.load`/`setattr`) are modelled by `JValue`.  The program only
  produces strings, integers, `None`, lists and dicts, so booleans and
  floats are omitted.
* A task instance is `PyTask`: its class tag, the four base attributes
  set by `Task.__init__` (`title`, `description`, `status`, `created`),
  and an association list for every further attribute (`deadline`,
  `priority`, `interval_days`, `start_date`, and anything injected by
  `setattr` during deserialization).
* Calls to `datetime.now()` are modelled by an explicit `now` argument.
* Raising an exception is modelled by `Except.error`; printing is
  presentation only and is not modelled.
* `json.dumps`/`json.loads` are modelled as the identity between a
  document tree and its text, so `Project.to_json`/`from_json` exchange
  `JValue` trees directly.
-/

/-- Calendar timestamp at second precision, modelling `datetime.datetime`. -/
structure PyDateTime where
  year : Nat
  month : Nat
  day : Nat
  hour : Nat
  minute : Nat
  second : Nat
  deriving DecidableEq, Repr

/-- Lexicographic strict comparison of timestamps, modelling `datetime <`. -/
def PyDateTime.lt (a b : PyDateTime) : Bool :=
  if a.year ≠ b.year then a.year < b.year
  else if a.month ≠ b.month then a.month < b.month
  else if a.day ≠ b.day then a.day < b.day
  else if a.hour ≠ b.hour then a.hour < b.hour
  else if a.minute ≠ b.minute then a.minute < b.minute
  else a.second < b.second

/-- Zero-padded two-digit decimal, as produced by `strftime`. -/
def pad2 (n : Nat) : String :=
  if n < 10 then "0" ++ toString n else toString n

/-- Zero-padded four-digit decimal, as produced by `strftime` for `%Y`. -/
def pad4 (n : Nat) : String :=
  if n < 10 then "000" ++ toString n
  else if n < 100 then "00" ++ toString n
  else if n < 1000 then "0" ++ toString n
  else toString n

/-- Models `strftime("%Y-%m-%d %H:%M:%S")`. -/
def fmtSec (d : PyDateTime) : String :=
  pad4 d.year ++ "-" ++ pad2 d.month ++ "-" ++ pad2 d.day ++ " " ++
    pad2 d.hour ++ ":" ++ pad2 d.minute ++ ":" ++ pad2 d.second

/-- Models `strftime("%Y-%m-%d")`. -/
def fmtDate (d : PyDateTime) : String :=
  pad4 d.year ++ "-" ++ pad2 d.month ++ "-" ++ pad2 d.day

/-- Whether a Gregorian year is a leap year. -/
def isLeap (y : Nat) : Bool :=
  y % 4 = 0 && (y % 100 ≠ 0 || y % 400 = 0)

/-- Number of days of a month, as validated by `datetime`. -/
def daysInMonth (y m : Nat) : Nat :=
  if m = 2 then (if isLeap y then 29 else 28)
  else if m = 4 ∨ m = 6 ∨ m = 9 ∨ m = 11 then 30
  else 31

/-- Decimal value of a digit character. -/
def digitVal (c : Char) : Nat := c.toNat - 48

/-- Models `datetime.strptime(s, "%Y-%m-%d")` on canonical zero-padded
date strings (the only strings the program produces or the spec uses);
`none` models `ValueError`. -/
def parseDate (s : String) : Option PyDateTime :=
  match s.data with
  | [y1, y2, y3, y4, c1, m1, m2, c2, d1, d2] =>
    if c1 = '-' ∧ c2 = '-' ∧ y1.isDigit ∧ y2.isDigit ∧ y3.isDigit ∧ y4.isDigit ∧
        m1.isDigit ∧ m2.isDigit ∧ d1.isDigit ∧ d2.isDigit then
      let y := digitVal y1 * 1000 + digitVal y2 * 100 + digitVal y3 * 10 + digitVal y4
      let mo := digitVal m1 * 10 + digitVal m2
      let da := digitVal d1 * 10 + digitVal d2
      if 1 ≤ y ∧ 1 ≤ mo ∧ mo ≤ 12 ∧ 1 ≤ da ∧ da ≤ daysInMonth y mo then
        some ⟨y, mo, da, 0, 0, 0⟩
      else none
    else none
  | _ => none

/-- Models `datetime.strptime(s, "%Y-%m-%d %H:%M:%S")` on canonical
zero-padded timestamp strings; `none` models `ValueError`. -/
def parseDateTimeSec (s : String) : Option PyDateTime :=
  match s.data with
  | [y1, y2, y3, y4, c1, m1, m2, c2, d1, d2, sp, h1, h2, c3, n1, n2, c4, s1, s2] =>
    if c1 = '-' ∧ c2 = '-' ∧ sp = ' ' ∧ c3 = ':' ∧ c4 = ':' ∧
        y1.isDigit ∧ y2.isDigit ∧ y3.isDigit ∧ y4.isDigit ∧
        m1.isDigit ∧ m2.isDigit ∧ d1.isDigit ∧ d2.isDigit ∧
        h1.isDigit ∧ h2.isDigit ∧ n1.isDigit ∧ n2.isDigit ∧
        s1.isDigit ∧ s2.isDigit then
      let y := digitVal y1 * 1000 + digitVal y2 * 100 + digitVal y3 * 10 + digitVal y4
      let mo := digitVal m1 * 10 + digitVal m2
      let da := digitVal d1 * 10 + digitVal d2
      let h := digitVal h1 * 10 + digitVal h2
      let mi := digitVal n1 * 10 + digitVal n2
      let se := digitVal s1 * 10 + digitVal s2
      if 1 ≤ y ∧ 1 ≤ mo ∧ mo ≤ 12 ∧ 1 ≤ da ∧ da ≤ daysInMonth y mo ∧
          h ≤ 23 ∧ mi ≤ 59 ∧ se ≤ 59 then
        some ⟨y, mo, da, h, mi, se⟩
      else none
    else none
  | _ => none

/-- JSON-like values: the plain Python values flowing through the
program's serialization layer.  `jnull` models Python `None`. -/
inductive JValue where
  | jnull
  | str (s : String)
  | int (n : Int)
  | arr (xs : List JValue)
  | obj (fs : List (String × JValue))
  deriving Repr

/-- Whether a value is a string. -/
def JValue.isStr : JValue → Bool
  | .str _ => true
  | _ => false

/-- Whether a value is an integer. -/
def JValue.isInt : JValue → Bool
  | .int _ => true
  | _ => false

/-- Python truthiness of a value (`None`, `""`, `0`, `[]`, `{}` are falsy). -/
def JValue.truthy : JValue → Bool
  | .jnull => false
  | .str s => s ≠ ""
  | .int n => n ≠ 0
  | .arr xs => !xs.isEmpty
  | .obj fs => !fs.isEmpty

/-- Field lookup on a JSON object (`data[k]` / `data.get(k)`); `none` both
when the key is absent and when the value is not an object. -/
def JValue.getField (j : JValue) (k : String) : Option JValue :=
  match j with
  | .obj fs => fs.lookup k
  | _ => none

/-- Tags of the three concrete `Task` subclasses. -/
inductive TaskVariant where
  | regularT
  | priorityT
  | recurringT
  deriving DecidableEq, Repr

/-- Python name of each subclass, as used as the registry key. -/
def TaskVariant.clsName : TaskVariant → String
  | .regularT => "RegularTask"
  | .priorityT => "PriorityTask"
  | .recurringT => "RecurringTask"

/-- A task instance: its class, the four attributes `Task.__init__`
always sets, and every further attribute (variant fields and any field
injected by `setattr` during deserialization) as an association list
of plain values. -/
structure PyTask where
  cls : TaskVariant
  title : String
  description : String
  status : String
  created : PyDateTime
  extras : List (String × JValue)
  deriving Repr

/-- Attribute lookup (`getattr`) restricted to the JSON-valued
attributes; `created` holds a `datetime` and is never read through
`getattr` by the program. -/
def PyTask.getattrJ (t : PyTask) (name : String) : Option JValue :=
  if name = "title" then some (.str t.title)
  else if name = "description" then some (.str t.description)
  else if name = "status" then some (.str t.status)
  else t.extras.lookup name

/-- Replace the binding of `k` (or append it), keeping attribute order. -/
def setAttrList (l : List (String × JValue)) (k : String) (v : JValue) :
    List (String × JValue) :=
  match l with
  | [] => [(k, v)]
  | (k', v') :: rest =>
    if k' = k then (k, v) :: rest else (k', v') :: setAttrList rest k v

/-- Models `setattr(t, k, v)` for a non-base attribute name. -/
def PyTask.setattrJ (t : PyTask) (k : String) (v : JValue) : PyTask :=
  { t with extras := setAttrList t.extras k v }

/-- Models `Task.STATUS`. -/
def Task.STATUS : List String := ["pending", "in progress", "done"]

/-- Models `Task.registry` after the three subclass declarations have
run (`__init_subclass__` registers each class under its name). -/
def Task.registry : List String := ["RegularTask", "PriorityTask", "RecurringTask"]

/-- Models `RegularTask.__init__` (base init plus the `deadline`
attribute, default `None`); `now` models `datetime.now()`. -/
def RegularTask.init (now : PyDateTime) (title description status : String)
    (deadline : JValue) : PyTask :=
  ⟨.regularT, title, description, status, now, [("deadline", deadline)]⟩

/-- ASCII uppercase of one character, as `str.upper` acts on the
program's priority strings. -/
def pyUpperChar (c : Char) : Char :=
  if 97 ≤ c.toNat ∧ c.toNat ≤ 122 then Char.ofNat (c.toNat - 32) else c

/-- Models `str.upper()` on ASCII strings. -/
def pyUpper (s : String) : String := ⟨s.data.map pyUpperChar⟩

/-- Models `PriorityTask.__init__` (base init plus `priority.upper()`). -/
def PriorityTask.init (now : PyDateTime) (title description status : String)
    (priority : String) : PyTask :=
  ⟨.priorityT, title, description, status, now, [("priority", .str (pyUpper priority))]⟩

/-- Models `RecurringTask.__init__`; a missing or empty `start_date`
falls back to `datetime.now().strftime("%Y-%m-%d")`. -/
def RecurringTask.init (now : PyDateTime) (title description status : String)
    (interval_days : Int) (start_date : Option String) : PyTask :=
  ⟨.recurringT, title, description, status, now,
    [("interval_days", .int interval_days),
     ("start_date", .str (match start_date with
       | some s => if s = "" then fmtDate now else s
       | none => fmtDate now))]⟩

/-- Models `Task.next_status`: look up the current status in
`Task.STATUS` (`none` models the `ValueError` of `list.index` when the
status is not in the list) and advance it one step unless it is the
last entry. -/
def Task.next_status (t : PyTask) : Option PyTask :=
  match Task.STATUS.findIdx? (fun x => x == t.status) with
  | none => none
  | some i =>
    if i < Task.STATUS.length - 1 then
      some { t with status := Task.STATUS.getD (i + 1) t.status }
    else
      some t

/-- Base part of `Task.to_dict`: the `kwargs` mapping shared by all
variants, with `created` formatted at second precision. -/
def Task.to_dict_base (t : PyTask) : List (String × JValue) :=
  [("title", .str t.title), ("description", .str t.description),
   ("status", .str t.status), ("created", .str (fmtSec t.created))]

/-- Models the dynamic dispatch of `to_dict`.  `RegularTask` adds its
`deadline` inside `kwargs`; `PriorityTask` and `RecurringTask` spread
their variant fields at the top level of the mapping, next to
`task_type` and `kwargs`.  Every reachable instance carries its variant
attributes, so the `.getD .jnull` fallback never fires on them. -/
def PyTask.to_dict (t : PyTask) : JValue :=
  match t.cls with
  | .regularT =>
    .obj [("task_type", .str "RegularTask"),
          ("kwargs", .obj (Task.to_dict_base t ++
            [("deadline", (t.getattrJ "deadline").getD .jnull)]))]
  | .priorityT =>
    .obj [("task_type", .str "PriorityTask"),
          ("kwargs", .obj (Task.to_dict_base t)),
          ("priority", (t.getattrJ "priority").getD .jnull)]
  | .recurringT =>
    .obj [("task_type", .str "RecurringTask"),
          ("kwargs", .obj (Task.to_dict_base t)),
          ("interval_days", (t.getattrJ "interval_days").getD .jnull),
          ("start_date", (t.getattrJ "start_date").getD .jnull)]

/-- Extract an optional string field with a default.  The model is
restricted to documents whose base fields are strings (all documents
the program itself produces); a non-string value is rejected. -/
def expectStrD (v : Option JValue) (dflt : String) : Except String String :=
  match v with
  | none => Except.ok dflt
  | some (.str s) => Except.ok s
  | some _ => Except.error "TypeError: expected a string"

/-- Models `data.get("kwargs", {})` followed by the `.get` accesses on
it: absent defaults to the empty mapping, a non-mapping value errors. -/
def getKwargs (fields : List (String × JValue)) :
    Except String (List (String × JValue)) :=
  match fields.lookup "kwargs" with
  | none => Except.ok []
  | some (.obj fs) => Except.ok fs
  | some _ => Except.error "AttributeError: kwargs is not a mapping"

/-- Models the constructor call `task_class(title=..., description=...,
status=...)` dispatched on the registered class name; each variant
constructor fills its specific fields with its defaults. -/
def constructTask (now : PyDateTime) (tyName title description status : String) :
    PyTask :=
  if tyName = "RegularTask" then
    RegularTask.init now title description status .jnull
  else if tyName = "PriorityTask" then
    PriorityTask.init now title description status "MEDIUM"
  else
    RecurringTask.init now title description status 7 none

/-- The `setattr` loop of `from_dict`: every `kwargs` entry except the
four base names is applied as an attribute. -/
def applyKwargs (obj : PyTask) (kwargs : List (String × JValue)) : PyTask :=
  kwargs.foldl (fun o kv =>
    if kv.1 ∈ ["title", "description", "status", "created"] then o
    else o.setattrJ kv.1 kv.2) obj

/-- The final `created` override of `from_dict`: taken directly from the
source, it reads `"created"` from the TOP level of the mapping
(`data["created"]`), not from `kwargs` where `to_dict` writes it. -/
def applyCreated (fields : List (String × JValue)) (obj : PyTask) :
    Except String PyTask :=
  match fields.lookup "created" with
  | none => Except.ok obj
  | some (.str s) =>
    match parseDateTimeSec s with
    | some d => Except.ok { obj with created := d }
    | none => Except.error "ValueError: bad created timestamp"
  | some _ => Except.error "TypeError: created is not a string"

/-- Models `Task.from_dict`: reject an unregistered `task_type`, build
the variant with the base fields of `kwargs`, apply every non-base
`kwargs` entry with `setattr`, then apply the top-level `created`
override. -/
def Task.from_dict (now : PyDateTime) (data : JValue) : Except String PyTask :=
  match data with
  | .obj fields =>
    match fields.lookup "task_type" with
    | some (.str tyName) =>
      if tyName ∈ Task.registry then
        match getKwargs fields with
        | Except.error e => Except.error e
        | Except.ok kwargs =>
          match expectStrD (kwargs.lookup "title") "" with
          | Except.error e => Except.error e
          | Except.ok title =>
            match expectStrD (kwargs.lookup "description") "" with
            | Except.error e => Except.error e
            | Except.ok description =>
              match expectStrD (kwargs.lookup "status") "pending" with
              | Except.error e => Except.error e
              | Except.ok status =>
                applyCreated fields
                  (applyKwargs (constructTask now tyName title description status)
                    kwargs)
      else
        Except.error ("Unknown task type: " ++ tyName)
    | some _ => Except.error "Unknown task type"
    | none => Except.error "KeyError: task_type"
  | _ => Except.error "TypeError: task entry is not a mapping"

/-- Models the list comprehension `[Task.from_dict(d) for d in entries]`:
entries are deserialized left to right and the first exception aborts
the whole comprehension. -/
def fromDictList (now : PyDateTime) : List JValue → Except String (List PyTask)
  | [] => Except.ok []
  | d :: ds =>
    match Task.from_dict now d with
    | Except.error e => Except.error e
    | Except.ok t =>
      match fromDictList now ds with
      | Except.error e => Except.error e
      | Except.ok ts => Except.ok (t :: ts)

/-- The project: a name, the ordered task collection, and the reference
date used for the overdue computation. -/
structure Project where
  name : String
  tasks : List PyTask
  current_date : PyDateTime
  deriving Repr

/-- Models `Project.__init__`. -/
def Project.init (now : PyDateTime) (name : String) : Project := ⟨name, [], now⟩

/-- Loop of `Project.get_overdue_tasks`: only instances of
`RegularTask` are considered; their `deadline` must be truthy and the
status not `done` before the deadline string is parsed and compared
strictly against the reference date.  Errors model the exceptions of
`strptime` on a malformed or non-string deadline. -/
def overdueLoop (cur : PyDateTime) : List PyTask → Except String (List PyTask)
  | [] => Except.ok []
  | t :: ts =>
    if t.cls = .regularT then
      match t.getattrJ "deadline" with
      | none => Except.error "AttributeError: deadline"
      | some dl =>
        if dl.truthy && !(t.status == "done") then
          match dl with
          | .str s =>
            match parseDate s with
            | some d =>
              if PyDateTime.lt d cur then
                (overdueLoop cur ts).map (t :: ·)
              else
                overdueLoop cur ts
            | none => Except.error "ValueError: bad deadline"
          | _ => Except.error "TypeError: strptime argument"
        else
          overdueLoop cur ts
    else
      overdueLoop cur ts

/-- Models `Project.get_overdue_tasks`. -/
def Project.get_overdue_tasks (p : Project) : Except String (List PyTask) :=
  overdueLoop p.current_date p.tasks

/-- Code-point lexicographic strict comparison of character lists,
modelling Python string `<`. -/
def strLtChars : List Char → List Char → Bool
  | [], [] => false
  | [], _ :: _ => true
  | _ :: _, [] => false
  | a :: as, b :: bs =>
    if a.toNat < b.toNat then true
    else if b.toNat < a.toNat then false
    else strLtChars as bs

/-- Python string `<`. -/
def pyStrLt (s t : String) : Bool := strLtChars s.data t.data

/-- Python integer `<` as a boolean. -/
def intLt (a b : Int) : Bool := a < b

/-- The relation `list.sort(key=k)` sorts by: `a` may precede `b`
exactly when `k b < k a` fails.  Stated through a boolean strict
comparison `ltB` on the key type. -/
def keyLe {α κ : Type} (k : α → κ) (ltB : κ → κ → Bool) (a b : α) : Prop :=
  ltB (k b) (k a) = false

instance {α κ : Type} (k : α → κ) (ltB : κ → κ → Bool) :
    DecidableRel (keyLe k ltB) :=
  fun a b => inferInstanceAs (Decidable (ltB (k b) (k a) = false))

/-- Models the stable `list.sort(key=k)` with a total strict key
comparison: insertion sort with the `keyLe` relation is stable, hence
extensionally equal to Timsort. -/
def pySortKey {α κ : Type} (k : α → κ) (ltB : κ → κ → Bool) (l : List α) : List α :=
  List.insertionSort (keyLe k ltB) l

/-- Whether a value can be a dict key: `hash` succeeds on `None`,
strings and integers but raises `TypeError` on lists and dicts. -/
def JValue.hashable : JValue → Bool
  | .arr _ => false
  | .obj _ => false
  | _ => true

/-- The value used as the priority sort key source:
`getattr(t, 'priority', '')`. -/
def priorityAttr (t : PyTask) : JValue :=
  (t.getattrJ "priority").getD (.str "")

/-- Models `PriorityTask.PRIORITY_ORDER.get(v, 0)`: `dict.get` hashes
its key first, so an unhashable value (a list or dict, injectable
through `from_dict`'s `setattr` loop) raises `TypeError`; any other
key looks up the fixed table, defaulting to 0. -/
def PRIORITY_ORDER_get (v : JValue) : Except String Int :=
  match v with
  | .str "HIGH" => Except.ok 3
  | .str "MEDIUM" => Except.ok 2
  | .str "LOW" => Except.ok 1
  | .arr _ => Except.error "TypeError: unhashable type"
  | .obj _ => Except.error "TypeError: unhashable type"
  | _ => Except.ok 0

/-- Rank used by the priority sort, on the hashable domain where
`PRIORITY_ORDER_get` cannot fail (the 0 of the error branch is a
placeholder that `sortPriority`'s guard keeps unreachable). -/
def priorityRank (t : PyTask) : Int :=
  match PRIORITY_ORDER_get (priorityAttr t) with
  | Except.ok r => r
  | Except.error _ => 0

/-- The priority sort key of the source: the negated rank. -/
def priorityKey (t : PyTask) : Int := - priorityRank t

/-- Models the priority sort: CPython's `list.sort(key=...)` computes
every element's key before comparing, so a single unhashable
`priority` value raises `TypeError` whatever the list length;
otherwise the result is the stable sort by the computed keys. -/
def sortPriority (ts : List PyTask) : Except String (List PyTask) :=
  if ts.all (fun t => (priorityAttr t).hashable) then
    Except.ok (pySortKey priorityKey intLt ts)
  else
    Except.error "TypeError: unhashable priority key"

/-- The deadline sort key `getattr(t, 'deadline', '9999-12-31')`. -/
def deadlineKey (t : PyTask) : JValue :=
  (t.getattrJ "deadline").getD (.str "9999-12-31")

/-- String content of the deadline key (meaningful when all keys are
strings). -/
def deadlineKeyStr (t : PyTask) : String :=
  match deadlineKey t with
  | .str s => s
  | _ => ""

/-- Integer content of the deadline key (meaningful when all keys are
integers). -/
def deadlineKeyInt (t : PyTask) : Int :=
  match deadlineKey t with
  | .int n => n
  | _ => 0

/-- Sorting by deadline key.  Python sorts when every key has one
comparable type (all strings, or all integers) and raises `TypeError`
on the first comparison between incomparable keys; with at most one
element no comparison happens.  Keys that are all lists (unreachable
through the program's constructors and documents) are conservatively
mapped to the error case. -/
def sortDeadline (ts : List PyTask) : Except String (List PyTask) :=
  if (ts.map deadlineKey).all JValue.isStr then
    Except.ok (pySortKey deadlineKeyStr pyStrLt ts)
  else if (ts.map deadlineKey).all JValue.isInt then
    Except.ok (pySortKey deadlineKeyInt intLt ts)
  else if ts.length ≤ 1 then
    Except.ok ts
  else
    Except.error "TypeError: unorderable deadline keys"

/-- Models `Project.sort_tasks`: the three criteria of the source; any
unrecognized criterion falls through to the default sort by `created`
(via `Task.__lt__`). -/
def Project.sort_tasks (p : Project) (criterion : String) : Except String Project :=
  if criterion = "deadline" then
    (sortDeadline p.tasks).map (fun ts => { p with tasks := ts })
  else if criterion = "priority" then
    (sortPriority p.tasks).map (fun ts => { p with tasks := ts })
  else
    Except.ok { p with tasks := pySortKey (fun t => t.created) PyDateTime.lt p.tasks }

/-- Models `Project.to_json` (the document tree; `json.dumps` is the
identity in this model). -/
def Project.to_json (p : Project) : JValue :=
  .obj [("name", .str p.name),
        ("current_date", .str (fmtSec p.current_date)),
        ("tasks", .arr (p.tasks.map PyTask.to_dict))]

/-- Models the `current_date` handling shared by `from_json` and
`load`: absent keeps the given default, a parsable timestamp string
replaces it, anything else raises. -/
def readCurrentDate (fields : List (String × JValue)) (dflt : PyDateTime) :
    Except String PyDateTime :=
  match fields.lookup "current_date" with
  | none => Except.ok dflt
  | some (.str s) =>
    match parseDateTimeSec s with
    | some d => Except.ok d
    | none => Except.error "ValueError: bad current_date"
  | some _ => Except.error "TypeError: current_date is not a string"

/-- Models `data.get("tasks", [])` followed by iteration: absent
defaults to the empty list, a non-list value errors. -/
def readTasksField (fields : List (String × JValue)) : Except String (List JValue) :=
  match fields.lookup "tasks" with
  | none => Except.ok []
  | some (.arr xs) => Except.ok xs
  | some _ => Except.error "TypeError: tasks is not a list"

/-- Models `Project.from_json`: a fresh project whose name defaults to
"Unnamed Project", whose `current_date` defaults to the construction
time, and whose tasks come from `Task.from_dict`; any task failure
aborts the whole call. -/
def Project.from_json (now : PyDateTime) (doc : JValue) : Except String Project :=
  match doc with
  | .obj fields =>
    match expectStrD (fields.lookup "name") "Unnamed Project" with
    | Except.error e => Except.error e
    | Except.ok name =>
      match readCurrentDate fields now with
      | Except.error e => Except.error e
      | Except.ok cd =>
        match readTasksField fields with
        | Except.error e => Except.error e
        | Except.ok entries =>
          match fromDictList now entries with
          | Except.error e => Except.error e
          | Except.ok ts => Except.ok ⟨name, ts, cd⟩
  | _ => Except.error "TypeError: document is not a mapping"

/-- Models `Project.load` on an already-parsed file.  `file = none`
models `FileNotFoundError`, which the source catches: the project is
returned unchanged and no exception escapes.  Otherwise the source
mutates `self.name` first, then `self.current_date`, and only then
builds the full new task list before assigning it; the returned
`Option String` is the exception that propagates to the caller, paired
with the state the project holds at that moment. -/
def Project.load (now : PyDateTime) (p : Project) (file : Option JValue) :
    Project × Option String :=
  match file with
  | none => (p, none)
  | some data =>
    match data with
    | .obj fields =>
      match expectStrD (fields.lookup "name") p.name with
      | Except.error e => (p, some e)
      | Except.ok nm =>
        let p1 := { p with name := nm }
        match readCurrentDate fields p.current_date with
        | Except.error e => (p1, some e)
        | Except.ok cd =>
          let p2 := { p1 with current_date := cd }
          match readTasksField fields with
          | Except.error e => (p2, some e)
          | Except.ok entries =>
            match fromDictList now entries with
            | Except.error e => (p2, some e)
            | Except.ok ts => ({ p2 with tasks := ts }, none)
    | _ => (p, some "AttributeError: document is not a mapping")

/-- Predicate of the overdue specification: the task is an instance of
`RegularTask`, its deadline is a non-empty string, its status is not
`done`, and its deadline date is strictly before the reference date. -/
def isOverdue (cur : PyDateTime) (t : PyTask) : Bool :=
  match t.cls, t.getattrJ "deadline" with
  | .regularT, some (.str s) =>
    !(s == "") && !(t.status == "done") &&
      (match parseDate s with
       | some d => PyDateTime.lt d cur
       | none => false)
  | _, _ => false

/-- Well-formedness of deadlines: every `RegularTask` carries its
`deadline` attribute as `None` or a string, and a non-empty deadline of
a non-done task parses as a date.  This is exactly the precondition
under which `get_overdue_tasks` runs without an exception. -/
def deadlineWF (t : PyTask) : Bool :=
  if t.cls = .regularT then
    match t.getattrJ "deadline" with
    | some JValue.jnull => true
    | some (.str s) => s == "" || t.status == "done" || (parseDate s).isSome
    | _ => false
  else true

theorem isOverdue_cls {cur : PyDateTime} {t : PyTask}
    (h : isOverdue cur t = true) : t.cls = .regularT := by
  unfold isOverdue at h
  cases hc : t.cls <;> rw [hc] at h <;> simp_all

theorem overdueLoop_eq (cur : PyDateTime) (ts : List PyTask)
    (h : ts.all deadlineWF = true) :
    overdueLoop cur ts = Except.ok (ts.filter (isOverdue cur)) := by
  induction ts with
  | nil => rfl
  | cons t ts ih =>
    rw [List.all_cons, Bool.and_eq_true] at h
    obtain ⟨ht, hts⟩ := h
    have ihr := ih hts
    unfold deadlineWF at ht
    rw [overdueLoop, List.filter_cons]
    by_cases hcls : t.cls = TaskVariant.regularT
    · rw [if_pos hcls] at ht ⊢
      cases hdl : t.getattrJ "deadline" with
      | none => rw [hdl] at ht; simp at ht
      | some dl =>
        rw [hdl] at ht
        cases dl with
        | jnull =>
          have hio : isOverdue cur t = false := by simp [isOverdue, hcls, hdl]
          simp [JValue.truthy, hio, ihr]
        | str s =>
          by_cases hs : s = ""
          · have hio : isOverdue cur t = false := by simp [isOverdue, hcls, hdl, hs]
            simp [JValue.truthy, hs, hio, ihr]
          · by_cases hdone : t.status = "done"
            · have hio : isOverdue cur t = false := by
                simp [isOverdue, hcls, hdl, hdone]
              simp [JValue.truthy, hs, hdone, hio, ihr]
            · have hparse : (parseDate s).isSome = true := by
                simp [hs, hdone] at ht; exact ht
              cases hp : parseDate s with
              | none => rw [hp] at hparse; simp at hparse
              | some d =>
                cases hlt : PyDateTime.lt d cur with
                | true =>
                  have hio : isOverdue cur t = true := by
                    simp [isOverdue, hcls, hdl, hs, hdone, hp, hlt]
                  simp [JValue.truthy, hs, hdone, hp, hlt, hio, ihr, Except.map]
                | false =>
                  have hio : isOverdue cur t = false := by
                    simp [isOverdue, hcls, hdl, hs, hdone, hp, hlt]
                  simp [JValue.truthy, hs, hdone, hp, hlt, hio, ihr]
        | int n => simp at ht
        | arr xs => simp at ht
        | obj fs => simp at ht
    · rw [if_neg hcls]
      have hio : isOverdue cur t = false := by
        unfold isOverdue
        cases hc : t.cls with
        | regularT => exact absurd hc hcls
        | priorityT => rfl
        | recurringT => rfl
      simp [hio, ihr]

theorem intLt_irrefl (x : Int) : intLt x x = false := by
  simp [intLt]

theorem intLt_asymm (x y : Int) : intLt x y = true → intLt y x = false := by
  simp [intLt]; omega

theorem intLt_negtrans (x y z : Int) :
    intLt x y = false → intLt y z = false → intLt x z = false := by
  simp [intLt]; omega

theorem strLtChars_irrefl : ∀ a : List Char, strLtChars a a = false
  | [] => rfl
  | c :: cs => by simp [strLtChars, strLtChars_irrefl cs]

theorem strLtChars_asymm :
    ∀ a b : List Char, strLtChars a b = true → strLtChars b a = false
  | [], [] => by simp [strLtChars]
  | [], _ :: _ => by simp [strLtChars]
  | _ :: _, [] => by simp [strLtChars]
  | a :: as, b :: bs => by
    intro h
    rw [strLtChars] at h ⊢
    by_cases h1 : a.toNat < b.toNat
    · rw [if_neg (by omega), if_pos h1]
    · rw [if_neg h1] at h
      by_cases h2 : b.toNat < a.toNat
      · rw [if_pos h2] at h; exact absurd h (by simp)
      · rw [if_neg h2] at h
        rw [if_neg h2, if_neg h1]
        exact strLtChars_asymm as bs h

theorem strLtChars_negtrans :
    ∀ a b c : List Char,
      strLtChars a b = false → strLtChars b c = false → strLtChars a c = false
  | [], [], [] => by intro _ _; rfl
  | [], [], _ :: _ => by intro _ h2; exact absurd h2 (by simp [strLtChars])
  | [], _ :: _, _ => by intro h1 _; exact absurd h1 (by simp [strLtChars])
  | _ :: _, [], [] => by intro _ _; rfl
  | _ :: _, [], _ :: _ => by intro _ h2; exact absurd h2 (by simp [strLtChars])
  | _ :: _, _ :: _, [] => by intro _ _; rfl
  | a :: as, b :: bs, c :: cs => by
    intro h1 h2
    rw [strLtChars] at h1 h2 ⊢
    by_cases hab : a.toNat < b.toNat
    · rw [if_pos hab] at h1; exact absurd h1 (by simp)
    · rw [if_neg hab] at h1
      by_cases hbc : b.toNat < c.toNat
      · rw [if_pos hbc] at h2; exact absurd h2 (by simp)
      · rw [if_neg hbc] at h2
        have hac : ¬ a.toNat < c.toNat := by omega
        rw [if_neg hac]
        by_cases hca : c.toNat < a.toNat
        · rw [if_pos hca]
        · rw [if_neg hca]
          have hba : ¬ b.toNat < a.toNat := by omega
          have hcb : ¬ c.toNat < b.toNat := by omega
          rw [if_neg hba] at h1
          rw [if_neg hcb] at h2
          exact strLtChars_negtrans as bs cs h1 h2

theorem pyStrLt_irrefl (s : String) : pyStrLt s s = false :=
  strLtChars_irrefl s.data

theorem pyStrLt_asymm (s t : String) : pyStrLt s t = true → pyStrLt t s = false :=
  strLtChars_asymm s.data t.data

theorem pyStrLt_negtrans (s t u : String) :
    pyStrLt s t = false → pyStrLt t u = false → pyStrLt s u = false :=
  strLtChars_negtrans s.data t.data u.data

theorem pySortKey_perm {α κ : Type} (k : α → κ) (ltB : κ → κ → Bool) (l : List α) :
    (pySortKey k ltB l).Perm l :=
  List.perm_insertionSort _ l

theorem pySortKey_sorted {α κ : Type} (k : α → κ) (ltB : κ → κ → Bool)
    (hasym : ∀ x y, ltB x y = true → ltB y x = false)
    (hneg : ∀ x y z, ltB x y = false → ltB y z = false → ltB x z = false)
    (l : List α) :
    (pySortKey k ltB l).Pairwise (fun a b => ltB (k b) (k a) = false) := by
  haveI ht : IsTotal α (keyLe k ltB) := by
    constructor
    intro a b
    cases hab : ltB (k b) (k a) with
    | false => exact Or.inl hab
    | true => exact Or.inr (hasym _ _ hab)
  haveI htr : IsTrans α (keyLe k ltB) := by
    constructor
    intro a b c hab hbc
    exact hneg _ _ _ hbc hab
  exact List.sorted_insertionSort (keyLe k ltB) l

theorem orderedInsert_filter_key {α κ : Type} [DecidableEq κ] (k : α → κ)
    (ltB : κ → κ → Bool) (hirr : ∀ x, ltB x x = false) (x : α) (v : κ) :
    ∀ s : List α,
      (List.orderedInsert (keyLe k ltB) x s).filter (fun a => decide (k a = v)) =
        if k x = v then x :: s.filter (fun a => decide (k a = v))
        else s.filter (fun a => decide (k a = v))
  | [] => by
    by_cases hkx : k x = v <;> simp [List.orderedInsert, List.filter, hkx]
  | y :: ys => by
    by_cases hxy : keyLe k ltB x y
    · rw [List.orderedInsert, if_pos hxy]
      by_cases hkx : k x = v <;> simp [List.filter_cons, hkx]
    · rw [List.orderedInsert, if_neg hxy]
      have hlt : ltB (k y) (k x) = true := by
        revert hxy
        unfold keyLe
        cases ltB (k y) (k x) <;> simp
      rw [List.filter_cons, orderedInsert_filter_key k ltB hirr x v ys]
      by_cases hkx : k x = v
      · have hkyv : ¬ (k y = v) := by
          intro hy
          have heq : k y = k x := hy.trans hkx.symm
          rw [heq, hirr (k x)] at hlt
          exact Bool.false_ne_true hlt
        simp [List.filter_cons, hkx, hkyv]
      · simp [List.filter_cons, hkx]

theorem pySortKey_filter_key {α κ : Type} [DecidableEq κ] (k : α → κ)
    (ltB : κ → κ → Bool) (hirr : ∀ x, ltB x x = false) (v : κ) :
    ∀ l : List α,
      (pySortKey k ltB l).filter (fun a => decide (k a = v)) =
        l.filter (fun a => decide (k a = v))
  | [] => rfl
  | x :: xs => by
    have ih := pySortKey_filter_key k ltB hirr v xs
    simp only [pySortKey] at ih ⊢
    show (List.orderedInsert (keyLe k ltB) x
      (List.insertionSort (keyLe k ltB) xs)).filter (fun a => decide (k a = v)) = _
    rw [orderedInsert_filter_key k ltB hirr x v]
    by_cases hkx : k x = v <;> simp [List.filter_cons, hkx, ih]

theorem from_dict_unknown_type (now : PyDateTime) (data : JValue) (ty : String)
    (h1 : data.getField "task_type" = some (.str ty))
    (h2 : ty ∉ Task.registry) :
    Task.from_dict now data = Except.error ("Unknown task type: " ++ ty) := by
  cases data with
  | obj fs =>
    have h1' : List.lookup "task_type" fs = some (JValue.str ty) := h1
    unfold Task.from_dict
    simp [h1', h2]
  | jnull => simp [JValue.getField] at h1
  | str s => simp [JValue.getField] at h1
  | int n => simp [JValue.getField] at h1
  | arr xs => simp [JValue.getField] at h1

theorem fromDictList_error_of_mem (now : PyDateTime) {ds : List JValue} {d : JValue}
    (hmem : d ∈ ds) (m : String) (herr : Task.from_dict now d = Except.error m) :
    ∃ m', fromDictList now ds = Except.error m' := by
  induction ds with
  | nil => cases hmem
  | cons a as ih =>
    rcases List.mem_cons.mp hmem with rfl | hmem'
    · refine ⟨m, ?_⟩
      unfold fromDictList
      rw [herr]
    · cases ha : Task.from_dict now a with
      | error e =>
        refine ⟨e, ?_⟩
        unfold fromDictList
        rw [ha]
      | ok t =>
        obtain ⟨m', hm'⟩ := ih hmem'
        refine ⟨m', ?_⟩
        unfold fromDictList
        rw [ha, hm']

theorem length_ge_two_of_two_mem {α : Type} {l : List α} {a b : α}
    (ha : a ∈ l) (hb : b ∈ l) (hne : a ≠ b) : 2 ≤ l.length := by
  cases l with
  | nil => cases ha
  | cons x xs =>
    cases xs with
    | nil =>
      simp at ha hb
      exact absurd (ha.trans hb.symm) hne
    | cons y ys => simp [List.length]

/-- Sample timestamp (creation time) used in concrete statements. -/
def dJan : PyDateTime := ⟨2024, 1, 1, 0, 0, 0⟩

/-- Sample timestamp (deserialization time) used in concrete statements. -/
def dJun : PyDateTime := ⟨2024, 6, 15, 12, 0, 0⟩

/-- String content of the `priority` attribute (empty when absent or
not a string). -/
def priorityStr (t : PyTask) : String :=
  match t.getattrJ "priority" with
  | some (.str s) => s
  | _ => ""

/-- C4: `Task.next_status` moves the status exactly one step forward
along `Task.STATUS` (pending, in progress, done) and leaves everything
else of the task unchanged; at the terminal value "done" it is a
no-op. -/
theorem C4_next_status_one_step (t : PyTask) :
    (t.status = "pending" →
      Task.next_status t = some { t with status := "in progress" }) ∧
    (t.status = "in progress" →
      Task.next_status t = some { t with status := "done" }) ∧
    (t.status = "done" → Task.next_status t = some t) := by
  refine ⟨fun h => ?_, fun h => ?_, fun h => ?_⟩ <;>
    (unfold Task.next_status; rw [h]; rfl)

/-- Witness for C4: a concrete pending task advances to "in progress",
then to "done", and a third call leaves "done" unchanged. -/
theorem C4_next_status_one_step_witness :
    Task.next_status (RegularTask.init dJan "a" "" "pending" JValue.jnull) =
      some (RegularTask.init dJan "a" "" "in progress" JValue.jnull) ∧
    Task.next_status (RegularTask.init dJan "a" "" "in progress" JValue.jnull) =
      some (RegularTask.init dJan "a" "" "done" JValue.jnull) ∧
    Task.next_status (RegularTask.init dJan "a" "" "done" JValue.jnull) =
      some (RegularTask.init dJan "a" "" "done" JValue.jnull) :=
  ⟨(C4_next_status_one_step _).1 rfl, (C4_next_status_one_step _).2.1 rfl,
    (C4_next_status_one_step _).2.2 rfl⟩

/-- C8: loading from a nonexistent path leaves the project (name,
current date and tasks) unchanged and propagates no exception: the
source catches `FileNotFoundError` and only prints a message. -/
theorem C8_load_missing_file (now : PyDateTime) (p : Project) :
    Project.load now p none = (p, none) := rfl

/-- C1 (failing input for the round-trip claim): a `PriorityTask` with
priority "HIGH" created at `dJan`, serialized and deserialized at
`dJun`, comes back with the default priority "MEDIUM" and with
`created` equal to the deserialization time: `from_dict` reads
`created` at the top level of the mapping while `to_dict` wrote it
inside `kwargs`, and the top-level `priority` entry written by
`PriorityTask.to_dict` is never applied. -/
theorem C1_roundtrip_loses_fields :
    Task.from_dict dJun (PriorityTask.init dJan "t" "" "pending" "HIGH").to_dict =
      Except.ok (PriorityTask.init dJun "t" "" "pending" "MEDIUM") ∧
    priorityStr (PriorityTask.init dJan "t" "" "pending" "HIGH") = "HIGH" ∧
    priorityStr (PriorityTask.init dJun "t" "" "pending" "MEDIUM") = "MEDIUM" ∧
    ("MEDIUM" : String) ≠ "HIGH" ∧
    (PriorityTask.init dJun "t" "" "pending" "MEDIUM").created = dJun ∧
    dJun ≠ dJan :=
  ⟨rfl, rfl, rfl, by decide, rfl, by decide⟩

/-- C2 (failing input for the project round-trip claim): a project with
one "HIGH"-priority task round-trips through `to_json`/`from_json` with
its name and `current_date` intact but with the task's priority reset
to "MEDIUM" and its `created` replaced by the deserialization time. -/
theorem C2_project_roundtrip_loses_task_fields :
    Project.from_json dJun
        (Project.to_json ⟨"P", [PriorityTask.init dJan "t" "" "pending" "HIGH"], dJan⟩) =
      Except.ok ⟨"P", [PriorityTask.init dJun "t" "" "pending" "MEDIUM"], dJan⟩ ∧
    priorityStr (PriorityTask.init dJun "t" "" "pending" "MEDIUM") ≠
      priorityStr (PriorityTask.init dJan "t" "" "pending" "HIGH") ∧
    (PriorityTask.init dJun "t" "" "pending" "MEDIUM").created ≠
      (PriorityTask.init dJan "t" "" "pending" "HIGH").created :=
  ⟨rfl, by decide, by decide⟩

/-- C3: a mapping whose `task_type` is a string absent from the
registry makes `Task.from_dict` fail with the unknown-type error (an
`Except.error`, so no partial task object is produced), and a document
whose task list contains such an entry anywhere makes the whole
`from_json` call abort with an error instead of skipping the entry. -/
theorem C3_unknown_type_rejected (now : PyDateTime) (data : JValue) (ty : String)
    (h1 : data.getField "task_type" = some (JValue.str ty))
    (h2 : ty ∉ Task.registry) :
    Task.from_dict now data = Except.error ("Unknown task type: " ++ ty) ∧
    ∀ (nm : String) (pre post : List JValue),
      ∃ m, Project.from_json now
        (JValue.obj [("name", JValue.str nm),
          ("tasks", JValue.arr (pre ++ data :: post))]) = Except.error m := by
  have herr := from_dict_unknown_type now data ty h1 h2
  refine ⟨herr, ?_⟩
  intro nm pre post
  have hmem : data ∈ pre ++ data :: post :=
    List.mem_append_right _ (List.mem_cons_self _ _)
  obtain ⟨m', hm'⟩ := fromDictList_error_of_mem now hmem _ herr
  refine ⟨m', ?_⟩
  unfold Project.from_json
  simp [expectStrD, readCurrentDate, readTasksField, List.lookup, hm']

/-- Witness for C3 at the spec's example entry with type "Bogus". -/
theorem C3_unknown_type_rejected_witness :
    (JValue.obj [("task_type", JValue.str "Bogus"),
        ("kwargs", JValue.obj [])]).getField "task_type" =
      some (JValue.str "Bogus") ∧
    "Bogus" ∉ Task.registry ∧
    Task.from_dict dJun
        (JValue.obj [("task_type", JValue.str "Bogus"), ("kwargs", JValue.obj [])]) =
      Except.error ("Unknown task type: " ++ "Bogus") :=
  ⟨rfl, by decide,
    (C3_unknown_type_rejected dJun
      (JValue.obj [("task_type", JValue.str "Bogus"), ("kwargs", JValue.obj [])])
      "Bogus" rfl (by decide)).1⟩

/-- C10: when the file exists and parses but some task entry carries an
unregistered `task_type`, the error propagates to the caller, the task
collection is left unchanged (the new list is fully built before the
assignment), and `name` and `current_date` have already been
overwritten from the document. -/
theorem C10_load_partially_atomic (now : PyDateTime) (p : Project)
    (nm cdS : String) (cd : PyDateTime) (entries : List JValue)
    (d : JValue) (ty : String)
    (hcd : parseDateTimeSec cdS = some cd)
    (hmem : d ∈ entries)
    (h1 : d.getField "task_type" = some (JValue.str ty))
    (h2 : ty ∉ Task.registry) :
    ∃ m, Project.load now p
      (some (JValue.obj [("name", JValue.str nm), ("current_date", JValue.str cdS),
        ("tasks", JValue.arr entries)])) =
      ({ name := nm, tasks := p.tasks, current_date := cd }, some m) := by
  have herr := from_dict_unknown_type now d ty h1 h2
  obtain ⟨m', hm'⟩ := fromDictList_error_of_mem now hmem _ herr
  refine ⟨m', ?_⟩
  unfold Project.load
  simp [expectStrD, readCurrentDate, readTasksField, List.lookup, hcd, hm']

/-- Witness for C10: a concrete project, a document renaming it with a
new date, and a "Bogus" task entry. -/
theorem C10_load_partially_atomic_witness :
    parseDateTimeSec "2024-06-15 12:00:00" = some dJun ∧
    "Bogus" ∉ Task.registry ∧
    (∃ m, Project.load dJan
        ⟨"old", [RegularTask.init dJan "r" "" "pending" JValue.jnull], dJan⟩
        (some (JValue.obj [("name", JValue.str "N"),
          ("current_date", JValue.str "2024-06-15 12:00:00"),
          ("tasks", JValue.arr [JValue.obj [("task_type", JValue.str "Bogus"),
            ("kwargs", JValue.obj [])]])])) =
        ({ name := "N", tasks := [RegularTask.init dJan "r" "" "pending" JValue.jnull],
           current_date := dJun }, some m)) :=
  ⟨rfl, by decide,
    C10_load_partially_atomic dJan
      ⟨"old", [RegularTask.init dJan "r" "" "pending" JValue.jnull], dJan⟩
      "N" "2024-06-15 12:00:00" dJun
      [JValue.obj [("task_type", JValue.str "Bogus"), ("kwargs", JValue.obj [])]]
      (JValue.obj [("task_type", JValue.str "Bogus"), ("kwargs", JValue.obj [])])
      "Bogus" rfl (List.mem_cons_self _ _) rfl (by decide)⟩

/-- C9: sorting by "deadline" raises a comparison `TypeError` whenever
the collection holds a `RegularTask` whose `deadline` attribute is
present but `None` (the constructor default) together with any task
whose sort key is a string: the `'9999-12-31'` fallback of `getattr`
covers only an absent attribute, not a present-but-None one. -/
theorem C9_none_deadline_breaks_sort (p : Project) (t u : PyTask)
    (ht : t ∈ p.tasks) (hu : u ∈ p.tasks)
    (htd : t.getattrJ "deadline" = some JValue.jnull)
    (hud : (deadlineKey u).isStr = true) :
    ∃ m, p.sort_tasks "deadline" = Except.error m := by
  have htk : deadlineKey t = JValue.jnull := by simp [deadlineKey, htd]
  have hne : t ≠ u := by
    intro h
    rw [← h, htk] at hud
    exact absurd hud (by simp [JValue.isStr])
  have hlen := length_ge_two_of_two_mem ht hu hne
  have hnotStr : (p.tasks.map deadlineKey).all JValue.isStr = false := by
    rw [Bool.eq_false_iff]
    intro hall
    rw [List.all_eq_true] at hall
    have := hall (deadlineKey t) (List.mem_map_of_mem _ ht)
    rw [htk] at this
    exact absurd this (by simp [JValue.isStr])
  have hnotInt : (p.tasks.map deadlineKey).all JValue.isInt = false := by
    rw [Bool.eq_false_iff]
    intro hall
    rw [List.all_eq_true] at hall
    have hui := hall (deadlineKey u) (List.mem_map_of_mem _ hu)
    cases hk : deadlineKey u <;> rw [hk] at hui hud <;>
      simp [JValue.isStr, JValue.isInt] at hui hud
  have hgt : ¬ (p.tasks.length ≤ 1) := by omega
  refine ⟨"TypeError: unorderable deadline keys", ?_⟩
  unfold Project.sort_tasks sortDeadline
  simp [hnotStr, hnotInt, hgt, Except.map]

/-- Witness for C9: a `RegularTask` left at its default `deadline =
None` next to a `PriorityTask` (whose key is the string fallback). -/
theorem C9_none_deadline_breaks_sort_witness :
    (RegularTask.init dJan "r" "" "pending" JValue.jnull).getattrJ "deadline" =
      some JValue.jnull ∧
    (deadlineKey (PriorityTask.init dJan "p" "" "pending" "LOW")).isStr = true ∧
    (∃ m, Project.sort_tasks
      ⟨"P", [RegularTask.init dJan "r" "" "pending" JValue.jnull,
        PriorityTask.init dJan "p" "" "pending" "LOW"], dJan⟩ "deadline" =
      Except.error m) :=
  ⟨rfl, rfl,
    C9_none_deadline_breaks_sort
      ⟨"P", [RegularTask.init dJan "r" "" "pending" JValue.jnull,
        PriorityTask.init dJan "p" "" "pending" "LOW"], dJan⟩
      (RegularTask.init dJan "r" "" "pending" JValue.jnull)
      (PriorityTask.init dJan "p" "" "pending" "LOW")
      (List.mem_cons_self _ _)
      (List.mem_cons_of_mem _ (List.mem_cons_self _ _))
      rfl rfl⟩

/-- C5: under well-formed deadlines, `get_overdue_tasks` returns
exactly the tasks that are instances of `RegularTask`, have a
non-empty string deadline, have status other than "done", and whose
deadline date is strictly before `current_date`, in collection order;
in particular every returned task is a `RegularTask`, whatever
deadline-like attributes other variants may carry. -/
theorem C5_overdue_filter (p : Project)
    (h : p.tasks.all deadlineWF = true) :
    p.get_overdue_tasks = Except.ok (p.tasks.filter (isOverdue p.current_date)) ∧
    ∀ t ∈ p.tasks.filter (isOverdue p.current_date), t.cls = TaskVariant.regularT := by
  refine ⟨overdueLoop_eq p.current_date p.tasks h, ?_⟩
  intro t ht
  exact isOverdue_cls (List.of_mem_filter ht)

/-- Witness for C5 at the spec's example: with `current_date`
2024-06-15, a pending `RegularTask` with deadline 2024-06-01 is
returned, the same task with status "done" is not, and a
`PriorityTask` is not. -/
theorem C5_overdue_filter_witness :
    ([RegularTask.init dJan "a" "" "pending" (JValue.str "2024-06-01"),
      RegularTask.init dJan "b" "" "done" (JValue.str "2024-06-01"),
      PriorityTask.init dJan "c" "" "pending" "LOW"].all deadlineWF = true) ∧
    Project.get_overdue_tasks
      ⟨"P", [RegularTask.init dJan "a" "" "pending" (JValue.str "2024-06-01"),
        RegularTask.init dJan "b" "" "done" (JValue.str "2024-06-01"),
        PriorityTask.init dJan "c" "" "pending" "LOW"], ⟨2024, 6, 15, 0, 0, 0⟩⟩ =
      Except.ok [RegularTask.init dJan "a" "" "pending" (JValue.str "2024-06-01")] :=
  ⟨by decide,
    ((C5_overdue_filter
      ⟨"P", [RegularTask.init dJan "a" "" "pending" (JValue.str "2024-06-01"),
        RegularTask.init dJan "b" "" "done" (JValue.str "2024-06-01"),
        PriorityTask.init dJan "c" "" "pending" "LOW"], ⟨2024, 6, 15, 0, 0, 0⟩⟩
      (by decide)).1).trans rfl⟩

/-- C6: when every priority sort key is hashable (every present
`priority` attribute is `None`, a string or an integer — the claim's
scope, since an unhashable value makes `dict.get` raise before any
comparison), sorting by "priority" keeps the name and date, permutes
the collection, orders it descending by the fixed rank (HIGH 3,
MEDIUM 2, LOW 1, and 0 both for a task without a `priority` attribute
and for an unrecognized priority value, so rank-0 tasks end up last),
and is stable: for every rank value the subsequence of tasks of that
rank is exactly the one of the original collection, in the original
order. -/
theorem C6_sort_priority_stable_desc (p : Project)
    (h : p.tasks.all (fun t => (priorityAttr t).hashable) = true) :
    ∃ q, p.sort_tasks "priority" = Except.ok q ∧
      q.name = p.name ∧ q.current_date = p.current_date ∧
      q.tasks.Perm p.tasks ∧
      q.tasks.Pairwise (fun a b => priorityRank b ≤ priorityRank a) ∧
      ∀ k : Int, q.tasks.filter (fun t => decide (priorityRank t = k)) =
        p.tasks.filter (fun t => decide (priorityRank t = k)) := by
  refine ⟨{ p with tasks := pySortKey priorityKey intLt p.tasks },
    ?_, rfl, rfl, pySortKey_perm _ _ _, ?_, ?_⟩
  · unfold Project.sort_tasks sortPriority
    rw [if_neg (by decide), if_pos rfl, if_pos h]
    rfl
  · have hs := pySortKey_sorted priorityKey intLt intLt_asymm intLt_negtrans p.tasks
    refine hs.imp ?_
    intro a b hab
    simp [intLt, priorityKey] at hab
    omega
  · intro k
    have hf := pySortKey_filter_key priorityKey intLt intLt_irrefl (-k) p.tasks
    have hpred : (fun t => decide (priorityRank t = k)) =
        (fun a => decide (priorityKey a = -k)) := by
      funext t
      rw [decide_eq_decide]
      unfold priorityKey
      omega
    rw [hpred]
    exact hf

/-- Witness for C6 at the spec's stability example: priorities
[MEDIUM, HIGH, MEDIUM] inserted in that order sort to
[HIGH, first MEDIUM, second MEDIUM]. -/
theorem C6_sort_priority_stable_desc_witness :
    ([PriorityTask.init dJan "m1" "" "pending" "MEDIUM",
      PriorityTask.init dJan "h" "" "pending" "HIGH",
      PriorityTask.init dJan "m2" "" "pending" "MEDIUM"].all
        (fun t => (priorityAttr t).hashable) = true) ∧
    (∃ q, Project.sort_tasks
        ⟨"P", [PriorityTask.init dJan "m1" "" "pending" "MEDIUM",
          PriorityTask.init dJan "h" "" "pending" "HIGH",
          PriorityTask.init dJan "m2" "" "pending" "MEDIUM"], dJan⟩ "priority" =
          Except.ok q ∧
      q.name = "P" ∧ q.current_date = dJan ∧
      q.tasks.Perm [PriorityTask.init dJan "m1" "" "pending" "MEDIUM",
        PriorityTask.init dJan "h" "" "pending" "HIGH",
        PriorityTask.init dJan "m2" "" "pending" "MEDIUM"] ∧
      q.tasks.Pairwise (fun a b => priorityRank b ≤ priorityRank a) ∧
      ∀ k : Int, q.tasks.filter (fun t => decide (priorityRank t = k)) =
        [PriorityTask.init dJan "m1" "" "pending" "MEDIUM",
         PriorityTask.init dJan "h" "" "pending" "HIGH",
         PriorityTask.init dJan "m2" "" "pending" "MEDIUM"].filter
          (fun t => decide (priorityRank t = k))) ∧
    Project.sort_tasks
      ⟨"P", [PriorityTask.init dJan "m1" "" "pending" "MEDIUM",
        PriorityTask.init dJan "h" "" "pending" "HIGH",
        PriorityTask.init dJan "m2" "" "pending" "MEDIUM"], dJan⟩ "priority" =
      Except.ok ⟨"P", [PriorityTask.init dJan "h" "" "pending" "HIGH",
        PriorityTask.init dJan "m1" "" "pending" "MEDIUM",
        PriorityTask.init dJan "m2" "" "pending" "MEDIUM"], dJan⟩ :=
  ⟨rfl,
    C6_sort_priority_stable_desc
      ⟨"P", [PriorityTask.init dJan "m1" "" "pending" "MEDIUM",
        PriorityTask.init dJan "h" "" "pending" "HIGH",
        PriorityTask.init dJan "m2" "" "pending" "MEDIUM"], dJan⟩ rfl,
    rfl⟩

/-- C7 (amended): when every deadline sort key is a string, sorting by
"deadline" keeps the name and date, permutes the collection, orders it
ascending by the key string — `'9999-12-31'` standing in for an absent
`deadline` attribute — and is stable; hence a task without the
attribute ends up after every task whose deadline string is strictly
below `'9999-12-31'`, while a tie with an explicit `'9999-12-31'`
deadline keeps the prior relative order. -/
theorem C7_sort_deadline_fallback (p : Project)
    (h : (p.tasks.map deadlineKey).all JValue.isStr = true) :
    ∃ q, p.sort_tasks "deadline" = Except.ok q ∧
      q.name = p.name ∧ q.current_date = p.current_date ∧
      q.tasks.Perm p.tasks ∧
      q.tasks.Pairwise
        (fun a b => pyStrLt (deadlineKeyStr b) (deadlineKeyStr a) = false) ∧
      ∀ v : String, q.tasks.filter (fun t => decide (deadlineKeyStr t = v)) =
        p.tasks.filter (fun t => decide (deadlineKeyStr t = v)) := by
  refine ⟨{ p with tasks := pySortKey deadlineKeyStr pyStrLt p.tasks },
    ?_, rfl, rfl, pySortKey_perm _ _ _,
    pySortKey_sorted deadlineKeyStr pyStrLt pyStrLt_asymm pyStrLt_negtrans p.tasks,
    fun v => pySortKey_filter_key deadlineKeyStr pyStrLt pyStrLt_irrefl v p.tasks⟩
  unfold Project.sort_tasks sortDeadline
  rw [if_pos rfl, if_pos h]
  rfl

/-- Witness for C7 at a concrete collection: two dated tasks and a
`PriorityTask` without a `deadline` attribute. -/
theorem C7_sort_deadline_fallback_witness :
    (([RegularTask.init dJan "b" "" "pending" (JValue.str "2025-01-01"),
       PriorityTask.init dJan "p" "" "pending" "LOW",
       RegularTask.init dJan "a" "" "pending" (JValue.str "2024-01-01")].map
         deadlineKey).all JValue.isStr = true) ∧
    ∃ q, Project.sort_tasks
        ⟨"P", [RegularTask.init dJan "b" "" "pending" (JValue.str "2025-01-01"),
          PriorityTask.init dJan "p" "" "pending" "LOW",
          RegularTask.init dJan "a" "" "pending" (JValue.str "2024-01-01")], dJan⟩
        "deadline" = Except.ok q ∧
      q.name = "P" ∧ q.current_date = dJan ∧
      q.tasks.Perm [RegularTask.init dJan "b" "" "pending" (JValue.str "2025-01-01"),
        PriorityTask.init dJan "p" "" "pending" "LOW",
        RegularTask.init dJan "a" "" "pending" (JValue.str "2024-01-01")] ∧
      q.tasks.Pairwise
        (fun a b => pyStrLt (deadlineKeyStr b) (deadlineKeyStr a) = false) ∧
      ∀ v : String, q.tasks.filter (fun t => decide (deadlineKeyStr t = v)) =
        [RegularTask.init dJan "b" "" "pending" (JValue.str "2025-01-01"),
         PriorityTask.init dJan "p" "" "pending" "LOW",
         RegularTask.init dJan "a" "" "pending" (JValue.str "2024-01-01")].filter
          (fun t => decide (deadlineKeyStr t = v)) :=
  ⟨rfl, C7_sort_deadline_fallback
    ⟨"P", [RegularTask.init dJan "b" "" "pending" (JValue.str "2025-01-01"),
      PriorityTask.init dJan "p" "" "pending" "LOW",
      RegularTask.init dJan "a" "" "pending" (JValue.str "2024-01-01")], dJan⟩ rfl⟩

/-- C7 (counterexample to the claim as stated): a task lacking the
`deadline` attribute inserted before a `RegularTask` whose explicit
deadline is the date string "9999-12-31" gives two equal sort keys, the
stable sort keeps insertion order, and the attribute-less task does NOT
sort after the task with the explicit deadline. -/
theorem C7_sort_deadline_counterexample :
    (PriorityTask.init dJan "a" "" "pending" "MEDIUM").getattrJ "deadline" = none ∧
    (RegularTask.init dJan "b" "" "pending"
      (JValue.str "9999-12-31")).getattrJ "deadline" =
        some (JValue.str "9999-12-31") ∧
    Project.sort_tasks
      ⟨"P", [PriorityTask.init dJan "a" "" "pending" "MEDIUM",
        RegularTask.init dJan "b" "" "pending" (JValue.str "9999-12-31")], dJan⟩
      "deadline" =
      Except.ok ⟨"P", [PriorityTask.init dJan "a" "" "pending" "MEDIUM",
        RegularTask.init dJan "b" "" "pending" (JValue.str "9999-12-31")], dJan⟩ :=
  ⟨rfl, rfl, rfl⟩
